import Mathlib

/-!
# Verification of the route-planning / intercept core

Shallow embedding of the core decision-and-control engine of the
self-driving-car (ball-and-field) repository, together with proofs of the
spec's testable properties.

Conventions of the embedding:

* Machine floats (`f32`) are embedded as exact rationals `ℚ`.  All the code
  under verification only adds, multiplies, compares and clamps, so `ℚ` is a
  faithful carrier for the control flow; square roots (vector norms) are the
  one exception and are handled by comparing squares (`a ≥ ‖v‖ - c` with
  `a + c ≥ 0` is exactly `(a + c)^2 ≥ ‖v‖²`), or by taking the already
  computed angle/norm as an explicit input where the source obtains it from
  the `nalgebra`/`common` crates (which are outside this repository's core
  sources).
* Code of this repository that is not among the core sources (the `simulate`
  crate, `routing/models.rs`, `routing/recover.rs`, the `predict` helpers,
  the `rl` constants) is modelled from the spec; each such definition carries
  a doc comment starting with "Modelled from the spec:".
* The debug/log sink (`eeg.log`, `eeg.draw`) is specified to never affect
  outcomes; log strings are dropped, drawn shapes are returned as data.
-/

set_option maxRecDepth 10000

namespace SDC

/-- 3-vector over exact rationals (embeds `nalgebra::Vector3<f32>` /
`Point3<f32>`). -/
structure Vec3 where
  x : ℚ
  y : ℚ
  z : ℚ
deriving DecidableEq

/-- 2-vector over exact rationals (embeds `nalgebra::Vector2<f32>` /
`Point2<f32>`). -/
structure Vec2 where
  x : ℚ
  y : ℚ
deriving DecidableEq

def Vec3.sub (a b : Vec3) : Vec3 :=
  ⟨a.x - b.x, a.y - b.y, a.z - b.z⟩

def Vec3.add (a b : Vec3) : Vec3 :=
  ⟨a.x + b.x, a.y + b.y, a.z + b.z⟩

def Vec3.smul (c : ℚ) (v : Vec3) : Vec3 :=
  ⟨c * v.x, c * v.y, c * v.z⟩

/-- Squared Euclidean norm; `‖v‖²`.  Exact in `ℚ` where `‖v‖` is not. -/
def Vec3.normSq (v : Vec3) : ℚ :=
  v.x ^ 2 + v.y ^ 2 + v.z ^ 2

def Vec2.sub (a b : Vec2) : Vec2 :=
  ⟨a.x - b.x, a.y - b.y⟩

def Vec2.add (a b : Vec2) : Vec2 :=
  ⟨a.x + b.x, a.y + b.y⟩

def Vec2.normSq (v : Vec2) : ℚ :=
  v.x ^ 2 + v.y ^ 2

/-- `common` crate `to_2d()`: drop the z coordinate. -/
def Vec3.to_2d (v : Vec3) : Vec2 :=
  ⟨v.x, v.y⟩

/-- `common` crate `to_3d(z)`: lift with an explicit z coordinate. -/
def Vec2.to_3d (v : Vec2) (z : ℚ) : Vec3 :=
  ⟨v.x, v.y, z⟩

/-- Exact test of `dist ≥ ‖v‖ - slack` over `ℚ`.  Since `‖v‖ ≥ 0`, the
inequality holds iff `dist + slack ≥ 0` and `(dist + slack)² ≥ ‖v‖²`,
which avoids the irrational square root. -/
def geNormSub (dist slack : ℚ) (v : Vec3) : Bool :=
  decide (0 ≤ dist + slack ∧ Vec3.normSq v ≤ (dist + slack) ^ 2)

/-! ## The `simulate` crate (repository code not under the core sources)

`src/brain/src/predict/intercept.rs` drives `simulate::Ball` and
`simulate::Car1D`.  Their step functions live in the `simulate` crate, which
is not among the provided sources, so they are modelled from the spec
(§4.1: "small-step numerical integration of gravity, drag, and
collision-with-ground rules"; §4.2: "a simplified 1-D kinematic model of the
agent (constant or boost-assisted acceleration)"). -/

/-- Gravity acceleration along z (game units / s²).
Modelled from the spec: the predictor integrates gravity. -/
def gravityZ : ℚ := -650

/-- Linear drag coefficient per second.
Modelled from the spec: the predictor integrates drag. -/
def ballDrag : ℚ := 3 / 100

/-- Modelled from the spec: ball state of the forward physics simulator
(`simulate::Ball`), carrying location, velocity and angular velocity. -/
structure SimBall where
  loc : Vec3
  vel : Vec3
  ang_vel : Vec3
deriving DecidableEq

/-- `simulate::Ball::new(loc, vel, ang_vel)`.
Modelled from the spec: the simulator starts from the observed state. -/
def SimBall.new (loc vel ang_vel : Vec3) : SimBall :=
  ⟨loc, vel, ang_vel⟩

/-- Modelled from the spec: one small integration step of the ball — apply
gravity and drag to the velocity, advance the location, and resolve a
collision with the ground (z = 0) inelastically.  The angular velocity is
carried along unchanged (the spec gives no spin dynamics). -/
def SimBall.step (b : SimBall) (dt : ℚ) : SimBall :=
  let damp := 1 - ballDrag * dt
  let vel1 : Vec3 := ⟨b.vel.x * damp, b.vel.y * damp, (b.vel.z + gravityZ * dt) * damp⟩
  let loc1 := Vec3.add b.loc (Vec3.smul dt vel1)
  if loc1.z ≤ 0 ∧ vel1.z < 0 then
    { loc := ⟨loc1.x, loc1.y, 0⟩, vel := ⟨vel1.x, vel1.y, 0⟩, ang_vel := b.ang_vel }
  else
    { loc := loc1, vel := vel1, ang_vel := b.ang_vel }

/-- Maximum ground speed reachable on throttle alone (game units / s).
Modelled from the spec: the 1-D model has a bounded achievable speed. -/
def maxDriveSpeed : ℚ := 1410

/-- Maximum ground speed reachable with boost.
Modelled from the spec. -/
def maxBoostSpeed : ℚ := 2300

/-- Forward acceleration at full throttle (game units / s²).
Modelled from the spec: constant acceleration. -/
def throttleAccel : ℚ := 1000

/-- Additional forward acceleration while boosting.
Modelled from the spec: boost-assisted acceleration. -/
def boostAccel : ℚ := 1991

/-- Modelled from the spec: state of the simplified 1-D kinematic car model
(`simulate::Car1D`) — current speed and total distance traveled. -/
structure Car1D where
  speed : ℚ
  distance : ℚ
deriving DecidableEq

/-- `simulate::Car1D::new(speed)`: start at the given speed with no distance
traveled.  Modelled from the spec. -/
def Car1D.new (speed : ℚ) : Car1D :=
  ⟨speed, 0⟩

/-- `sim_car.distance_traveled()`. -/
def Car1D.distance_traveled (c : Car1D) : ℚ :=
  c.distance

/-- Modelled from the spec: one step of the 1-D model — accelerate (throttle,
optionally boost-assisted) up to the speed cap, then advance the odometer. -/
def Car1D.step (c : Car1D) (dt throttle : ℚ) (boost : Bool) : Car1D :=
  let accel := if boost then throttle * throttleAccel + boostAccel else throttle * throttleAccel
  let cap := if boost then maxBoostSpeed else maxDriveSpeed
  let speed1 := min (c.speed + accel * dt) cap
  { speed := speed1, distance := c.distance + speed1 * dt }

/-! ## Intercept Search — `src/brain/src/predict/intercept.rs`

`estimate_intercept_car_ball(car, ball)` steps a simulated ball and a 1-D
simulated car in lockstep for up to 200 frames of `DT = 1/60` and stops at
the first frame where the ball is low enough (`z ≤ 100`) and the simulated
car has covered the straight-line distance to the ball minus the 240-unit
radii allowance.

The embedding takes the car's starting location and the *norm* of its
starting velocity (`car.Physics.vel().norm()`, an input the source reads off
the `nalgebra` vector; the exact norm is irrational in general, so it is an
input here) plus the observed ball state. -/

/-- `DT` from `estimate_intercept_car_ball`. -/
def interceptDT : ℚ := 1 / 60

/-- `RADII` from `estimate_intercept_car_ball`: the meshes should barely
touch, so 240 units are subtracted from the center distance. -/
def interceptRADII : ℚ := 240

/-- Input snapshot of `estimate_intercept_car_ball`: the car's location and
starting speed (`car.Physics.vel().norm()`), and the observed ball state. -/
structure InterceptInput where
  carLoc : Vec3
  carSpeed : ℚ
  ballLoc : Vec3
  ballVel : Vec3
  ballAngVel : Vec3
deriving DecidableEq

/-- Loop state of `estimate_intercept_car_ball`: elapsed time `t`, the
simulated ball and the simulated 1-D car. -/
structure SimState where
  t : ℚ
  ball : SimBall
  car : Car1D
deriving DecidableEq

/-- The state before the loop: `t = 0`, `Ball::new(loc, vel, ang_vel)`,
`Car1D::new(car.Physics.vel().norm())`. -/
def interceptInit (inp : InterceptInput) : SimState :=
  { t := 0
    ball := SimBall.new inp.ballLoc inp.ballVel inp.ballAngVel
    car := Car1D.new inp.carSpeed }

/-- One iteration of the loop body before the exit tests:
`t += DT; sim_ball.step(DT); sim_car.step(DT, 1.0, false)`. -/
def interceptTick (s : SimState) : SimState :=
  { t := s.t + interceptDT
    ball := s.ball.step interceptDT
    car := s.car.step interceptDT 1 false }

/-- The ball is low enough to be playable this frame: the negation of the
`continue` guard `sim_ball.loc().z > 100.0`. -/
def ballLowEnough (s : SimState) : Bool :=
  decide (s.ball.loc.z ≤ 100)

/-- The `break` test: `sim_car.distance_traveled() >= target_traveled` where
`target_traveled = (sim_ball.loc() - car.Physics.loc()).norm() - RADII`
(`car.Physics.loc()` is the car's *starting* location). -/
def coversTarget (inp : InterceptInput) (s : SimState) : Bool :=
  geNormSub s.car.distance_traveled interceptRADII (Vec3.sub s.ball.loc inp.carLoc)

/-- The loop exits (breaks) at this frame: the ball is low enough (no
`continue`) and the car has covered the required distance. -/
def interceptFeasible (inp : InterceptInput) (s : SimState) : Bool :=
  ballLowEnough s && coversTarget inp s

/-- The `for _ in 0..200` loop: run the body, then exit early at the first
frame that is feasible, keeping the state of that frame. -/
def interceptLoop (inp : InterceptInput) : Nat → SimState → SimState
  | 0, s => s
  | n + 1, s =>
    let s1 := interceptTick s
    if interceptFeasible inp s1 then s1 else interceptLoop inp n s1

/-- Whether some frame among the next `n` is feasible (auxiliary, used to
phrase "a feasible intercept exists within the horizon"). -/
def anyInterceptFeasible (inp : InterceptInput) : Nat → SimState → Bool
  | 0, _ => false
  | n + 1, s =>
    let s1 := interceptTick s
    interceptFeasible inp s1 || anyInterceptFeasible inp n s1

/-- The final simulation state `estimate_intercept_car_ball` builds its
result from. -/
def interceptFinal (inp : InterceptInput) : SimState :=
  interceptLoop inp 200 (interceptInit inp)

/-- `InterceptResult` from `predict/intercept.rs`: an unconditional result —
the struct has no variant expressing "no feasible intercept".  The source
also derives `car_loc = ball_loc - normalize(ball_loc - car_loc) * RADII`;
that field involves an irrational normalization and is referenced by no
property under verification, so it is not carried here. -/
structure InterceptResult where
  time : ℚ
  ball_loc : Vec3
deriving DecidableEq

/-- `estimate_intercept_car_ball`: run the bounded search and package
whatever state the loop ended in — whether it broke at a feasible frame or
exhausted all 200 frames. -/
def estimate_intercept_car_ball (inp : InterceptInput) : InterceptResult :=
  let f := interceptFinal inp
  { time := f.t, ball_loc := f.ball.loc }

/-! ## Control commands — `common::halfway_house::PlayerInput` /
`rlbot::ffi::PlayerInput`

The per-tick control command: analog fields (`Throttle` in [0,1], `Steer`,
`Pitch`, `Yaw`, `Roll` in [-1,1]) and boolean fields. -/

structure PlayerInput where
  Throttle : ℚ
  Steer : ℚ
  Pitch : ℚ
  Yaw : ℚ
  Roll : ℚ
  Jump : Bool
  Boost : Bool
  Handbrake : Bool
deriving DecidableEq

/-- `PlayerInput::default()`: everything zeroed / off. -/
def PlayerInput.default : PlayerInput :=
  ⟨0, 0, 0, 0, 0, false, false, false⟩

/-! ## The routing data model — `routing/models.rs` (not under the core
sources)

`FollowRoute` (in `routing/behavior.rs`, a core source) is programmed
against trait objects `RoutePlanner`, `SegmentPlan`, `SegmentRunner` and the
types `RoutePlan`, `RoutePlanError`, `ProvisionalPlanExpansion[Tail]` from
`routing/models.rs`, which is not among the provided sources.  They are
modelled from the spec:

* planners and segments are dynamic trait objects; here they are opaque
  `Nat` handles, and a segment's runner is the segment's own handle (the
  *event* of creating it is recorded separately, see `RunEvent`);
* the outcomes of the external calls `PlanningContext::plan`,
  `RoutePlan::provisional_expand` and `SegmentRunner::execute_old` are
  supplied by the read-only tick context `BehaviorCtx`;
* the error taxonomy and its `recover` mapping follow spec §7. -/

/-- Modelled from the spec: recovery Behaviors constructed from recoverable
planning errors ("not on flat ground", "skidding — recover toward location
X"). -/
inductive RecoveryBehavior where
  | getToFlatGround
  | skidRecover (target_loc : Vec2)
deriving DecidableEq

/-- Modelled from the spec: the closed planning-error taxonomy of §7.
`MustBeOnFlatGround` and `MustNotBeSkidding` are the recoverable errors the
core sources construct; `UnknownIntercept` ("no predicted intercept found")
and `OtherFatal` are fatal. -/
inductive RoutePlanError where
  | MustBeOnFlatGround
  | MustNotBeSkidding (recover_target_loc : Vec2)
  | UnknownIntercept
  | OtherFatal (tag : Nat)
deriving DecidableEq

/-- Modelled from the spec: `RoutePlanError::recover(ctx)` — a recoverable
error carries enough data to construct its recovery Behavior; a fatal error
has none. -/
def RoutePlanError.recover : RoutePlanError → Option RecoveryBehavior
  | .MustBeOnFlatGround => some .getToFlatGround
  | .MustNotBeSkidding loc => some (.skidRecover loc)
  | .UnknownIntercept => none
  | .OtherFatal _ => none

/-- Modelled from the spec: `RoutePlan` — one committed segment plus the
deferred (uninvoked) next planner. -/
structure RoutePlan where
  segment : Nat
  next : Option Nat
deriving DecidableEq

/-- Error payload of `PlanningContext::plan` (`{error, log}`). -/
structure PlanFailure where
  error : RoutePlanError
  log : List Nat
deriving DecidableEq

/-- Error payload of `RoutePlan::provisional_expand`
(`{planner_name, error, log}`). -/
structure ExpandFailure where
  planner_name : Nat
  error : RoutePlanError
  log : List Nat
deriving DecidableEq

/-- `SegmentRunAction` from `routing/models.rs`: what a Segment Runner
reports each tick. -/
inductive SegmentRunAction where
  | Yield (input : PlayerInput)
  | Success
  | Failure
deriving DecidableEq

/-- `Action` from the Behavior Engine (`strategy`): the tagged control-
transfer outcome a Behavior produces each tick.  Behaviors carried by
`Call`/`RootCall`/`TailCall` are restricted here to the recovery Behaviors,
the only ones the verified code constructs. -/
inductive Action where
  | Yield (input : PlayerInput)
  | Return
  | Abort
  | Call (b : RecoveryBehavior)
  | RootCall (b : RecoveryBehavior)
  | TailCall (b : RecoveryBehavior)
deriving DecidableEq

/-- Read-only tick context for `FollowRoute` (the `Context` the engine
passes in), supplying the outcomes of the external collaborator calls:
planning, provisional expansion, segment running, and the optional
`SameBallTrajectory` pre-check.  Modelled from the spec: the context is an
immutable snapshot, so within one tick these outcomes are functions. -/
structure BehaviorCtx where
  planOutcome : Nat → Except PlanFailure (RoutePlan × List Nat)
  expandOutcome : RoutePlan → Except ExpandFailure (List Nat)
  runnerOutcome : Nat → SegmentRunAction
  sameBallOutcome : Option Action

/-- `Current` from `routing/behavior.rs`: the committed plan, its live
runner, and the provisional expansion tail computed when it was committed. -/
structure Current where
  plan : RoutePlan
  runner : Nat
  provisional_expansion_tail : List Nat
deriving DecidableEq

/-- `FollowRoute` from `routing/behavior.rs`.  `same_ball_trajectory` is
`Option<SameBallTrajectory>`; the rule object is stateless within a tick, so
only its presence is modelled. -/
structure FollowRoute where
  planner : Option Nat
  current : Option Current
  never_recover : Bool
  same_ball_trajectory : Bool
deriving DecidableEq

/-- `FollowRoute::new(planner)`. -/
def FollowRoute.new (planner : Nat) : FollowRoute :=
  { planner := some planner
    current := none
    never_recover := false
    same_ball_trajectory := false }

/-- Instrumentation: the observable event of `plan.segment.run()` — the
creation of a live Segment Runner for a segment.  The embedded `advance`
returns the list of such events so that "a runner is never created on a
failed plan" is a statement about the code, not about the model. -/
inductive RunEvent where
  | ranSegment (segment : Nat)
deriving DecidableEq

/-- `ProvisionalPlanExpansion::new(head, tail)` with `iter()`: the committed
head segment followed by the provisionally expanded tail segments. -/
def ProvisionalPlanExpansion.new (head : Nat) (tail : List Nat) : List Nat :=
  head :: tail

/-- `FollowRoute::handle_error`: log the trace (debug sink, dropped here),
then consult `error.recover(ctx)` — a recoverable error becomes
`Action::RootCall` of its recovery Behavior unless the `never_recover`
circuit breaker is set, in which case (and for fatal errors) the result is
`Action::Abort`. -/
def FollowRoute.handle_error (fr : FollowRoute) (planner_name : Nat)
    (error : RoutePlanError) (log : List Nat) : Action :=
  let _ := planner_name
  let _ := log
  match error.recover with
  | some b => if fr.never_recover then Action.Abort else Action.RootCall b
  | none => Action.Abort

/-- `FollowRoute::advance(planner, ctx)`: plan with the given planner; on
error, return the `handle_error` action.  Then provisionally expand the
remaining chain; on error, return the `handle_error` action.  Only if both
succeed, create the Segment Runner (`plan.segment.run()`, recorded as a
`RunEvent`) and commit `current`.  Result: updated state, run events, and
`Except.error action` exactly when the source returns `Err(action)`. -/
def FollowRoute.advance (fr : FollowRoute) (planner : Nat) (ctx : BehaviorCtx) :
    FollowRoute × List RunEvent × Except Action Unit :=
  match ctx.planOutcome planner with
  | .error e => (fr, [], .error (fr.handle_error planner e.error e.log))
  | .ok (plan, log) =>
    match ctx.expandOutcome plan with
    | .error e => (fr, [], .error (fr.handle_error e.planner_name e.error (log ++ e.log)))
    | .ok tail =>
      let runner := plan.segment
      ({ fr with current := some ⟨plan, runner, tail⟩ }, [.ranSegment plan.segment], .ok ())

/-- `FollowRoute::draw(ctx)`: recompute the provisional expansion of the
committed plan (head segment plus stored tail) and hand each segment to the
debug sink.  The drawn segments are returned as data; the behavior state is
returned so that "drawing mutates nothing" is a provable statement.  When
`current` is `None` the source would panic on `unwrap` (`execute_old` never
calls it in that state); the state is returned untouched. -/
def FollowRoute.draw (fr : FollowRoute) : FollowRoute × List Nat :=
  match fr.current with
  | none => (fr, [])
  | some cur =>
    (fr, ProvisionalPlanExpansion.new cur.plan.segment cur.provisional_expansion_tail)

/-- `FollowRoute::go(ctx)`: drive the committed runner.  `Yield` passes the
command up; `Failure` aborts; `Success` drops `current` and either returns
(no next planner) or advances to the deferred next planner and recurses.
The recursion is bounded by `fuel` (the source recurses on the call stack);
`none` models fuel exhaustion, never reached by any finite plan chain. -/
def FollowRoute.go (fuel : Nat) (fr : FollowRoute) (ctx : BehaviorCtx) :
    FollowRoute × List RunEvent × Option Action :=
  match fuel with
  | 0 => (fr, [], none)
  | fuel + 1 =>
    match fr.current with
    | none => (fr, [], none)
    | some current =>
      match ctx.runnerOutcome current.runner with
      | .Yield i => (fr, [], some (Action.Yield i))
      | .Failure => (fr, [], some Action.Abort)
      | .Success =>
        let fr1 := { fr with current := none }
        match current.plan.next with
        | none => (fr1, [], some Action.Return)
        | some next =>
          match fr1.advance next ctx with
          | (fr2, ev, .error action) => (fr2, ev, some action)
          | (fr2, ev, .ok ()) =>
            match FollowRoute.go fuel fr2 ctx with
            | (fr3, ev2, act) => (fr3, ev ++ ev2, act)

/-- `FollowRoute::execute_old(ctx)` minus the initial `SameBallTrajectory`
check: plan on the first tick (`current` empty), then draw, then `go`. -/
def FollowRoute.executeBody (fuel : Nat) (fr : FollowRoute) (ctx : BehaviorCtx) :
    FollowRoute × List RunEvent × Option Action :=
  match fr.current with
  | some _ =>
    let d := FollowRoute.draw fr
    d.1.go fuel ctx
  | none =>
    match fr.planner with
    | none => (fr, [], none)
    | some p =>
      let fr0 := { fr with planner := none }
      match fr0.advance p ctx with
      | (fr1, ev, .error action) => (fr1, ev, some action)
      | (fr1, ev, .ok ()) =>
        let d := FollowRoute.draw fr1
        let r := d.1.go fuel ctx
        (r.1, ev ++ r.2.1, r.2.2)

/-- `FollowRoute::execute_old(ctx)`: run the `SameBallTrajectory` rule first
(`return_some!`), then the main body. -/
def FollowRoute.executeOld (fuel : Nat) (fr : FollowRoute) (ctx : BehaviorCtx) :
    FollowRoute × List RunEvent × Option Action :=
  if fr.same_ball_trajectory then
    match ctx.sameBallOutcome with
    | some a => (fr, [], some a)
    | none => FollowRoute.executeBody fuel fr ctx
  else
    FollowRoute.executeBody fuel fr ctx

/-- Counterfactual stated by the spec for comparison ("this recomputation
must never influence control decisions"): `execute_old` with the `draw` call
skipped entirely. -/
def FollowRoute.executeBodyNoDraw (fuel : Nat) (fr : FollowRoute) (ctx : BehaviorCtx) :
    FollowRoute × List RunEvent × Option Action :=
  match fr.current with
  | some _ => fr.go fuel ctx
  | none =>
    match fr.planner with
    | none => (fr, [], none)
    | some p =>
      let fr0 := { fr with planner := none }
      match fr0.advance p ctx with
      | (fr1, ev, .error action) => (fr1, ev, some action)
      | (fr1, ev, .ok ()) =>
        let r := fr1.go fuel ctx
        (r.1, ev ++ r.2.1, r.2.2)

/-- The draw-free tick, for comparison with `FollowRoute.executeOld`. -/
def FollowRoute.executeOldNoDraw (fuel : Nat) (fr : FollowRoute) (ctx : BehaviorCtx) :
    FollowRoute × List RunEvent × Option Action :=
  if fr.same_ball_trajectory then
    match ctx.sameBallOutcome with
    | some a => (fr, [], some a)
    | none => FollowRoute.executeBodyNoDraw fuel fr ctx
  else
    FollowRoute.executeBodyNoDraw fuel fr ctx

/-! ## Ground intercept planning — `routing/plan/ground_intercept.rs`

`GroundIntercept::plan` runs, in order: the `NotOnFlatGround` guard, the
naive intercept search, the `IsSkidding` guard (whose error carries the
guessed intercept car location projected to 2-D), and finally delegates to
`TurnPlanner`.  The guard predicates (`routing/recover.rs`), the naive
search (`predict` crate) and `TurnPlanner` (`routing/plan/ground_turn.rs`)
are not among the provided sources and are modelled from the spec. -/

/-- One frame of the ball prediction sequence (`PredictedFrame`): time
offset, position, velocity. -/
structure BallFrame where
  t : ℚ
  loc : Vec3
  vel : Vec3
deriving DecidableEq

/-- The agent-state snapshot a planner reads (`ctx.start`).
`on_flat_ground` and `skidding` stand for the guard predicates
`NotOnFlatGround` / `IsSkidding` of `routing/recover.rs` (not under the core
sources); Modelled from the spec: "agent must be on flat ground to use
ground planners" and "agent must not be skidding (lateral slip) beyond a
threshold" — observable boolean facts of the snapshot. -/
structure StartState where
  loc : Vec3
  vel : Vec3
  boost : ℚ
  on_flat_ground : Bool
  skidding : Bool
deriving DecidableEq

/-- Modelled from the spec: `GroundedHit::max_ball_z()` (maneuvers crate,
not under the core sources) — the height threshold below which a grounded
hit is possible. -/
def GroundedHit.max_ball_z : ℚ := 110

/-- The feasibility predicate `GroundIntercept` passes to the naive search:
`|ball| ball.loc.z < GroundedHit::max_ball_z() && ball.vel.z < 25.0`. -/
def groundInterceptPredicate (ball : BallFrame) : Bool :=
  decide (ball.loc.z < GroundedHit.max_ball_z) && decide (ball.vel.z < 25)

/-- `NaiveIntercept` (predict crate, not under the core sources).
Modelled from the spec: the intercept candidate — time, object location and
the agent's contact location at intercept. -/
structure NaiveIntercept where
  time : ℚ
  ball_loc : Vec3
  car_loc : Vec3
deriving DecidableEq

/-- Modelled from the spec (§4.2): `naive_ground_intercept(frames,
start_loc, start_vel, start_boost, predicate)` — scan the predicted frames
in order and return the first whose frame satisfies the predicate and whose
position the simplified 1-D model (boost-assisted achievable speed) can
reach within the frame's time; `none` when no frame qualifies.  The
candidate's `car_loc` is the object's location at that frame (the melee
offset is applied by code outside the core sources). -/
def naive_ground_intercept (frames : List BallFrame) (start_loc start_vel : Vec3)
    (start_boost : ℚ) (predicate : BallFrame → Bool) : Option NaiveIntercept :=
  let _ := start_vel
  match frames with
  | [] => none
  | f :: rest =>
    if predicate f && geNormSub ((maxDriveSpeed + start_boost) * f.t) 0 (Vec3.sub f.loc start_loc) then
      some { time := f.t, ball_loc := f.loc, car_loc := f.loc }
    else
      naive_ground_intercept rest start_loc start_vel start_boost predicate

/-- The read-only planning context (`PlanningContext`): the agent snapshot,
the current ball prediction, and the outcome of delegating to
`TurnPlanner::new(target, next).plan(ctx)` (`routing/plan/ground_turn.rs`,
not under the core sources; Modelled from the spec: a planner invoked with
the chosen 2-D target, producing a route plan or a planning error). -/
structure PlanningCtx where
  start : StartState
  ball_prediction : List BallFrame
  turnPlanOutcome : Vec2 → Except RoutePlanError RoutePlan

/-- `GroundIntercept::plan(ctx)`: `guard!(ctx.start, NotOnFlatGround,
MustBeOnFlatGround)`, then the naive intercept search (failing with
`UnknownIntercept` when it returns `None`), then `guard!(ctx.start,
IsSkidding, MustNotBeSkidding { recover_target_loc: guess.car_loc.to_2d()
})`, and finally delegation to `TurnPlanner` aimed at
`guess.ball_loc.to_2d()`.  The `guard!` macro (not under the core sources)
is Modelled from the spec: fail fast with the given error when the guard
predicate holds on the snapshot. -/
def GroundIntercept.plan (ctx : PlanningCtx) : Except RoutePlanError RoutePlan :=
  if ctx.start.on_flat_ground = false then
    .error .MustBeOnFlatGround
  else
    match naive_ground_intercept ctx.ball_prediction ctx.start.loc ctx.start.vel
        ctx.start.boost groundInterceptPredicate with
    | none => .error .UnknownIntercept
    | some guess =>
      if ctx.start.skidding then
        .error (.MustNotBeSkidding (Vec3.to_2d guess.car_loc))
      else
        ctx.turnPlanOutcome (Vec3.to_2d guess.ball_loc)

/-! ## The Turn segment — `routing/segments/turn.rs`

Angle-valued quantities (`angle_to`, `UnitComplex::angle`) are computed by
`nalgebra`/`common` (outside the core sources) from coordinates and are
irrational in general; the embedding takes them as explicit inputs.  Angles
are represented in degrees: the source's radian constants
`3.0_f32.to_radians()`, `PI * (11.0 / 6.0)` and `2.0 * PI` become `3`,
`330` and `360`.  An `angle_to` result lies in `(-180, 180]`. -/

/-- `f32::signum`: `-1` for negative values, `1` otherwise (IEEE signum maps
`+0.0` to `1.0`; the argument is nonzero wherever the source uses it). -/
def qsignum (x : ℚ) : ℚ :=
  if x < 0 then -1 else 1

/-- `Turn::sweep_to(end_loc)` given the plan's target sweep and the raw
`angle_to` result for `end_loc` (both in degrees): normalize the raw angle
into the plan's direction of travel by adding or subtracting a full turn
when the signs disagree. -/
def Turn.sweep_to (sweep rawAngle : ℚ) : ℚ :=
  if rawAngle < 0 ∧ 0 ≤ sweep then rawAngle + 360
  else if 0 < rawAngle ∧ sweep < 0 then rawAngle - 360
  else rawAngle

/-- The control command `Turner` yields while the turn is still in progress:
full throttle, steering toward the sign of the yaw error. -/
def Turner.turnInput (yawDiff : ℚ) : PlayerInput :=
  { PlayerInput.default with Throttle := 1, Steer := qsignum yawDiff }

/-- `Turner::execute_old(ctx)` as a function of the per-tick observations:
whether the agent is on flat ground (`GetToFlatGround::on_flat_ground`,
movement module outside the core sources, Modelled from the spec as an
observable fact of the tick state), the plan's sweep, the yaw error
`me_forward.angle_to(target_loc - me_loc)`, and the raw sweep angle
`(start.loc - center).angle_to(me_loc - center)` (degrees).

Not on flat ground is `Failure`.  A yaw error under 3° is `Success`.
Otherwise the swept angle is computed; a sweep of magnitude at least 330°
is "degenerate" (only drawn to the debug sink); a non-degenerate sweep that
has reached the target sweep minus 3° is `Success`; anything else yields a
turn command. -/
def Turner.executeOld (on_flat_ground : Bool) (sweep yawDiff rawAngle : ℚ) :
    SegmentRunAction :=
  if on_flat_ground = false then
    SegmentRunAction.Failure
  else if |yawDiff| < 3 then
    SegmentRunAction.Success
  else
    let swept := Turn.sweep_to sweep rawAngle
    if ¬ 330 ≤ |swept| ∧ |sweep| - 3 ≤ |swept| then
      SegmentRunAction.Success
    else
      SegmentRunAction.Yield (Turner.turnInput yawDiff)

/-! ## Skid recovery — `src/brain/src/mechanics/skip_recover.rs` -/

/-- The steering value of `SkidRecover::execute2`: the angle of the rotation
from the current heading to the lead-compensated target heading
(`me_rot.rotation_to(future_rot).angle()`, an irrational angle computed by
`nalgebra`, taken as an input here, in radians), clamped by
`.max(-1.0).min(1.0)`. -/
def SkidRecover.steer (rawAngle : ℚ) : ℚ :=
  min (max rawAngle (-1)) 1

/-- The control command `SkidRecover` yields: full throttle, clamped steer. -/
def SkidRecover.recoverInput (rawAngle : ℚ) : PlayerInput :=
  { PlayerInput.default with Throttle := 1, Steer := SkidRecover.steer rawAngle }

/-- `SkidRecover::execute2(ctx)`: always yields the recovery command. -/
def SkidRecover.execute2 (rawAngle : ℚ) : Action :=
  Action.Yield (SkidRecover.recoverInput rawAngle)

/-! ## Turn geometry — `Turn::end()` (C10)

`Turn::end()` rotates the stored 2-D start state about the turn center
through the sweep angle: `UnitComplex::new(self.sweep)` applied to
`start.loc - center`, to `start.rot` and to `start.vel`, with the boost
carried over, then lifted to 3-D.  `UnitComplex::new(θ)` stores the pair
`(cos θ, sin θ)`; exact cosines of the stored angle are not rational, so the
embedding takes the unit complex as data together with its defining unit
property `c² + s² = 1`. -/

/-- A 2-D rotation stored as `nalgebra::UnitComplex` does: the pair
`(cos θ, sin θ)`. -/
structure Rot2 where
  c : ℚ
  s : ℚ
deriving DecidableEq

/-- Apply a rotation to a vector: complex multiplication. -/
def Rot2.mulVec (r : Rot2) (v : Vec2) : Vec2 :=
  ⟨r.c * v.x - r.s * v.y, r.s * v.x + r.c * v.y⟩

/-- Compose two rotations: complex multiplication. -/
def Rot2.comp (r q : Rot2) : Rot2 :=
  ⟨r.c * q.c - r.s * q.s, r.s * q.c + r.c * q.s⟩

/-- `CarState2D` from `routing/models.rs` (not under the core sources;
Modelled from the spec: the flat-ground projection of an agent state). -/
structure CarState2D where
  loc : Vec2
  rot : Rot2
  vel : Vec2
  boost : ℚ
deriving DecidableEq

/-- `rl::OCTANE_NEUTRAL_Z` (rl constants crate, not under the core sources;
Modelled from the spec: the resting height of the agent body). -/
def OCTANE_NEUTRAL_Z : ℚ := 1701 / 100

/-- The 3-D agent state (`CarState` of `routing/models.rs`, with the heading
kept as its around-z rotation). -/
structure CarState where
  loc : Vec3
  rot : Rot2
  vel : Vec3
  boost : ℚ
deriving DecidableEq

/-- `CarState2D::to_3d()`: lift the location to the resting height and the
velocity with a zero vertical component (`.to_3d(0.0)`). -/
def CarState2D.to_3d (s : CarState2D) : CarState :=
  { loc := s.loc.to_3d OCTANE_NEUTRAL_Z
    rot := s.rot
    vel := ⟨s.vel.x, s.vel.y, 0⟩
    boost := s.boost }

/-- The fields of `Turn` (`routing/segments/turn.rs`), with the sweep angle
represented by its unit complex `sweepRot = UnitComplex::new(sweep)`. -/
structure TurnPlan where
  start : CarState2D
  target_loc : Vec2
  center : Vec2
  radius : ℚ
  sweepRot : Rot2
deriving DecidableEq

/-- The 2-D state built inside `Turn::end()`: start rotated about the
center, heading and velocity rotated, boost carried over. -/
def TurnPlan.end2d (t : TurnPlan) : CarState2D :=
  { loc := Vec2.add t.center (t.sweepRot.mulVec (Vec2.sub t.start.loc t.center))
    rot := t.sweepRot.comp t.start.rot
    vel := t.sweepRot.mulVec t.start.vel
    boost := t.start.boost }

/-- `Turn::end()`: the rotated 2-D state lifted to 3-D. -/
def TurnPlan.endState (t : TurnPlan) : CarState :=
  t.end2d.to_3d

/-! ## Concrete instances used by the closed witness and counterexample
theorems -/

/-- A world with the ball resting on the ground 20000 units away along x and
the car at rest at the origin: every predicted frame is low enough, but the
1-D car model cannot cover the distance within the 200-frame horizon, so no
frame is feasible. -/
def interceptCexFar : InterceptInput :=
  { carLoc := ⟨0, 0, 0⟩, carSpeed := 0
    ballLoc := ⟨20000, 0, 0⟩, ballVel := ⟨0, 0, 0⟩, ballAngVel := ⟨0, 0, 0⟩ }

/-- The same situation along y, used for the intercept-feasibility
counterexample. -/
def interceptCexFarY : InterceptInput :=
  { carLoc := ⟨0, 0, 0⟩, carSpeed := 0
    ballLoc := ⟨0, 20000, 0⟩, ballVel := ⟨0, 0, 0⟩, ballAngVel := ⟨0, 0, 0⟩ }

/-- A ball hanging 100 units away at height 50: feasible on the very first
simulated frame. -/
def interceptWitNear : InterceptInput :=
  { carLoc := ⟨0, 0, 0⟩, carSpeed := 0
    ballLoc := ⟨100, 0, 50⟩, ballVel := ⟨0, 0, 0⟩, ballAngVel := ⟨0, 0, 0⟩ }

/-- A ball hanging 100 units away along y at height 50. -/
def interceptWitNearY : InterceptInput :=
  { carLoc := ⟨0, 0, 0⟩, carSpeed := 0
    ballLoc := ⟨0, 100, 50⟩, ballVel := ⟨0, 0, 0⟩, ballAngVel := ⟨0, 0, 0⟩ }

/-- A tick context whose planner succeeds with a single-segment plan and
whose provisional expansion fails with a fatal error. -/
def ctxExpandFails : BehaviorCtx :=
  { planOutcome := fun _ => .ok (⟨7, none⟩, [])
    expandOutcome := fun _ => .error ⟨3, .UnknownIntercept, []⟩
    runnerOutcome := fun _ => .Success
    sameBallOutcome := none }

/-- A tick context whose committed runner reports `Failure`. -/
def ctxRunnerFails : BehaviorCtx :=
  { planOutcome := fun _ => .ok (⟨7, none⟩, [])
    expandOutcome := fun _ => .ok []
    runnerOutcome := fun _ => .Failure
    sameBallOutcome := none }

/-- A `FollowRoute` with a committed single-segment plan. -/
def frCommitted : FollowRoute :=
  { planner := none
    current := some ⟨⟨5, none⟩, 5, [6, 7]⟩
    never_recover := false
    same_ball_trajectory := false }

/-- A planning context on flat ground with the agent skidding and a trivially
interceptable resting ball one second out. -/
def skidCtx : PlanningCtx :=
  { start :=
      { loc := ⟨0, 0, 0⟩, vel := ⟨900, 0, 0⟩, boost := 20
        on_flat_ground := true, skidding := true }
    ball_prediction := [{ t := 1, loc := ⟨500, 200, 0⟩, vel := ⟨0, 0, 0⟩ }]
    turnPlanOutcome := fun _ => .ok ⟨9, none⟩ }

/-- A turn plan whose sweep rotation is the exact rational point
`(3/5, 4/5)` of the unit circle. -/
def turnPlanWit : TurnPlan :=
  { start := { loc := ⟨2, 1⟩, rot := ⟨1, 0⟩, vel := ⟨3, 4⟩, boost := 30 }
    target_loc := ⟨0, 0⟩
    center := ⟨0, 0⟩
    radius := 1
    sweepRot := ⟨3 / 5, 4 / 5⟩ }

/-! # Theorems -/

/-- Drawing never touches the behavior state: the state component of
`FollowRoute::draw` is the input state. -/
theorem FollowRoute.draw_fst (fr : FollowRoute) : (FollowRoute.draw fr).1 = fr := by
  unfold FollowRoute.draw
  cases fr.current <;> rfl

/-- C1.  If the planner succeeds but provisional expansion of the remaining
chain fails, `FollowRoute::advance` returns the `handle_error` action as an
error, the behavior state is unchanged (in particular `current` stays
unset), and no `plan.segment.run()` event occurs — a Segment Runner is
created only after `provisional_expand` has returned `Ok`. -/
theorem followRoute_advance_fail_fast (fr : FollowRoute) (planner : Nat)
    (ctx : BehaviorCtx) (plan : RoutePlan) (log : List Nat) (e : ExpandFailure)
    (hcur : fr.current = none)
    (hplan : ctx.planOutcome planner = .ok (plan, log))
    (hexp : ctx.expandOutcome plan = .error e) :
    fr.advance planner ctx =
      (fr, ([], .error (fr.handle_error e.planner_name e.error (log ++ e.log)))) ∧
    (fr.advance planner ctx).1.current = none ∧
    (fr.advance planner ctx).2.1 = [] := by
  have h : fr.advance planner ctx =
      (fr, ([], .error (fr.handle_error e.planner_name e.error (log ++ e.log)))) := by
    simp only [FollowRoute.advance, hplan, hexp]
  refine ⟨h, ?_, ?_⟩
  · rw [h]
    simpa using hcur
  · rw [h]

/-- C1 witness: in a concrete context whose expansion fails with the fatal
`UnknownIntercept`, `advance` on a fresh `FollowRoute` leaves it uncommitted
and surfaces the error action. -/
theorem followRoute_advance_fail_fast_witness :
    (FollowRoute.new 0).current = none ∧
    ctxExpandFails.planOutcome 0 = .ok (⟨7, none⟩, []) ∧
    ctxExpandFails.expandOutcome ⟨7, none⟩ = .error ⟨3, .UnknownIntercept, []⟩ ∧
    (FollowRoute.new 0).advance 0 ctxExpandFails =
      ((FollowRoute.new 0), ([], .error ((FollowRoute.new 0).handle_error 3
        .UnknownIntercept ([] ++ [])))) :=
  ⟨rfl, rfl, rfl,
    (followRoute_advance_fail_fast (FollowRoute.new 0) 0 ctxExpandFails
      ⟨7, none⟩ [] ⟨3, .UnknownIntercept, []⟩ rfl rfl rfl).1⟩

/-- C2.  For a planning error that has a recovery behavior, `handle_error`
is governed by the `never_recover` circuit breaker: with the flag set it
returns `Action::Abort`, with the flag clear it returns `Action::RootCall`
of the recovery behavior. -/
theorem followRoute_never_recover_circuit_breaker (fr : FollowRoute)
    (planner_name : Nat) (err : RoutePlanError) (log : List Nat)
    (b : RecoveryBehavior) (hrec : err.recover = some b) :
    (fr.never_recover = true → fr.handle_error planner_name err log = Action.Abort) ∧
    (fr.never_recover = false →
      fr.handle_error planner_name err log = Action.RootCall b) := by
  unfold FollowRoute.handle_error
  rw [hrec]
  constructor
  · intro h
    simp [h]
  · intro h
    simp [h]

/-- C2 witness: the skid-recovery error is recoverable; with `never_recover`
set the result is `Abort`, with it clear the result is `RootCall` of the
skid-recovery behavior. -/
theorem followRoute_never_recover_circuit_breaker_witness :
    (RoutePlanError.MustNotBeSkidding ⟨1, 2⟩).recover = some (.skidRecover ⟨1, 2⟩) ∧
    FollowRoute.handle_error
      { planner := none, current := none, never_recover := true,
        same_ball_trajectory := false } 0 (.MustNotBeSkidding ⟨1, 2⟩) [] = Action.Abort ∧
    FollowRoute.handle_error
      { planner := none, current := none, never_recover := false,
        same_ball_trajectory := false } 0 (.MustNotBeSkidding ⟨1, 2⟩) []
      = Action.RootCall (.skidRecover ⟨1, 2⟩) :=
  ⟨rfl,
    (followRoute_never_recover_circuit_breaker
      { planner := none, current := none, never_recover := true,
        same_ball_trajectory := false } 0 (.MustNotBeSkidding ⟨1, 2⟩) []
      (.skidRecover ⟨1, 2⟩) rfl).1 rfl,
    (followRoute_never_recover_circuit_breaker
      { planner := none, current := none, never_recover := false,
        same_ball_trajectory := false } 0 (.MustNotBeSkidding ⟨1, 2⟩) []
      (.skidRecover ⟨1, 2⟩) rfl).2 rfl⟩

/-- C5.  On flat ground with a ground-intercept guess available, a skidding
agent makes `GroundIntercept::plan` return the `MustNotBeSkidding` error
carrying the guessed intercept car location projected to 2-D — an error,
never a committed drive plan — and that error recovers into the
skid-recovery behavior aimed at that location. -/
theorem ground_intercept_skid_redirect (ctx : PlanningCtx) (guess : NaiveIntercept)
    (hflat : ctx.start.on_flat_ground = true)
    (hguess : naive_ground_intercept ctx.ball_prediction ctx.start.loc ctx.start.vel
      ctx.start.boost groundInterceptPredicate = some guess)
    (hskid : ctx.start.skidding = true) :
    GroundIntercept.plan ctx =
      .error (.MustNotBeSkidding (Vec3.to_2d guess.car_loc)) ∧
    (RoutePlanError.MustNotBeSkidding (Vec3.to_2d guess.car_loc)).recover =
      some (.skidRecover (Vec3.to_2d guess.car_loc)) := by
  constructor
  · unfold GroundIntercept.plan
    rw [hflat, hguess, hskid]
    simp
  · rfl

/-- C5 witness: a concrete skidding context over a resting, reachable ball:
the plan is exactly the skid error aimed at the guessed car location. -/
theorem ground_intercept_skid_redirect_witness :
    skidCtx.start.on_flat_ground = true ∧
    naive_ground_intercept skidCtx.ball_prediction skidCtx.start.loc skidCtx.start.vel
      skidCtx.start.boost groundInterceptPredicate =
      some { time := 1, ball_loc := ⟨500, 200, 0⟩, car_loc := ⟨500, 200, 0⟩ } ∧
    skidCtx.start.skidding = true ∧
    GroundIntercept.plan skidCtx = .error (.MustNotBeSkidding ⟨500, 200⟩) := by
  have h2 : naive_ground_intercept skidCtx.ball_prediction skidCtx.start.loc
      skidCtx.start.vel skidCtx.start.boost groundInterceptPredicate =
      some { time := 1, ball_loc := ⟨500, 200, 0⟩, car_loc := ⟨500, 200, 0⟩ } := by
    with_unfolding_all decide
  refine ⟨rfl, h2, rfl, ?_⟩
  exact (ground_intercept_skid_redirect skidCtx
    { time := 1, ball_loc := ⟨500, 200, 0⟩, car_loc := ⟨500, 200, 0⟩ } rfl h2 rfl).1

/-- C6.  Fatal outcomes become the representable `Action::Abort` value, not
a panic: a non-recoverable planning error makes `handle_error` return
`Abort`, and a committed runner reporting `Failure` makes `go` return
`Abort` with the behavior state untouched. -/
theorem followRoute_fatal_abort :
    (∀ (fr : FollowRoute) (planner_name : Nat) (err : RoutePlanError) (log : List Nat),
      err.recover = none → fr.handle_error planner_name err log = Action.Abort) ∧
    (∀ (fuel : Nat) (fr : FollowRoute) (ctx : BehaviorCtx) (cur : Current),
      fr.current = some cur → ctx.runnerOutcome cur.runner = .Failure →
      fr.go (fuel + 1) ctx = (fr, ([], some Action.Abort))) := by
  constructor
  · intro fr planner_name err log hrec
    simp only [FollowRoute.handle_error, hrec]
  · intro fuel fr ctx cur hcur hrun
    simp only [FollowRoute.go, hcur, hrun]

/-- C6 witness: the fatal `UnknownIntercept` aborts, and a committed plan
whose runner fails aborts the tick. -/
theorem followRoute_fatal_abort_witness :
    RoutePlanError.UnknownIntercept.recover = none ∧
    FollowRoute.handle_error (FollowRoute.new 0) 0 .UnknownIntercept [] = Action.Abort ∧
    frCommitted.current = some ⟨⟨5, none⟩, 5, [6, 7]⟩ ∧
    ctxRunnerFails.runnerOutcome 5 = .Failure ∧
    frCommitted.go 1 ctxRunnerFails = (frCommitted, ([], some Action.Abort)) :=
  ⟨rfl, followRoute_fatal_abort.1 (FollowRoute.new 0) 0 .UnknownIntercept [] rfl,
    rfl, rfl,
    followRoute_fatal_abort.2 0 frCommitted ctxRunnerFails ⟨⟨5, none⟩, 5, [6, 7]⟩ rfl rfl⟩

/-- C8.  The per-tick provisional-expansion recomputation for the lookahead
preview is effect-free: `draw` leaves the behavior state untouched, the tick
result (state, run events and Action) is identical whether or not `draw` is
executed, and what `draw` hands to the sink is exactly the recomputed
provisional expansion of the committed plan. -/
theorem followRoute_draw_no_effect (fuel : Nat) (fr : FollowRoute) (ctx : BehaviorCtx) :
    (FollowRoute.draw fr).1 = fr ∧
    FollowRoute.executeOld fuel fr ctx = FollowRoute.executeOldNoDraw fuel fr ctx ∧
    (∀ cur, fr.current = some cur →
      (FollowRoute.draw fr).2 =
        ProvisionalPlanExpansion.new cur.plan.segment cur.provisional_expansion_tail) := by
  refine ⟨FollowRoute.draw_fst fr, ?_, ?_⟩
  · have hbody : ∀ (g : FollowRoute),
        FollowRoute.executeBody fuel g ctx = FollowRoute.executeBodyNoDraw fuel g ctx := by
      intro g
      unfold FollowRoute.executeBody FollowRoute.executeBodyNoDraw
      cases hcur : g.current with
      | some cur => simp only [hcur, FollowRoute.draw_fst]
      | none =>
        simp only [hcur]
        cases hp : g.planner with
        | none => rfl
        | some p =>
          simp only [hp]
          split
          · rfl
          · simp only [FollowRoute.draw_fst]
    unfold FollowRoute.executeOld FollowRoute.executeOldNoDraw
    cases hs : fr.same_ball_trajectory
    · simpa using hbody fr
    · cases hb : ctx.sameBallOutcome
      · simpa using hbody fr
      · simp
  · intro cur hcur
    simp only [FollowRoute.draw, hcur]

/-- C8 witness: with a concrete committed plan, drawing hands the head
segment followed by the stored tail to the sink, mutates nothing, and the
tick result matches the draw-free tick. -/
theorem followRoute_draw_no_effect_witness :
    frCommitted.current = some ⟨⟨5, none⟩, 5, [6, 7]⟩ ∧
    (FollowRoute.draw frCommitted).1 = frCommitted ∧
    (FollowRoute.draw frCommitted).2 = [5, 6, 7] ∧
    FollowRoute.executeOld 1 frCommitted ctxRunnerFails =
      FollowRoute.executeOldNoDraw 1 frCommitted ctxRunnerFails :=
  ⟨rfl, (followRoute_draw_no_effect 1 frCommitted ctxRunnerFails).1,
    (followRoute_draw_no_effect 1 frCommitted ctxRunnerFails).2.2
      ⟨⟨5, none⟩, 5, [6, 7]⟩ rfl,
    (followRoute_draw_no_effect 1 frCommitted ctxRunnerFails).2.1⟩

/-- Elapsed simulation time after `k` loop iterations: each iteration adds
exactly `DT`. -/
theorem interceptTick_iterate_t (k : Nat) (s : SimState) :
    (interceptTick^[k] s).t = s.t + k * interceptDT := by
  induction k with
  | zero => simp
  | succ n ih =>
    rw [Function.iterate_succ_apply']
    have hstep : ∀ x : SimState, (interceptTick x).t = x.t + interceptDT := fun _ => rfl
    rw [hstep, ih]
    push_cast
    ring

/-- The early-exit loop of `estimate_intercept_car_ball` stops exactly at
the first feasible frame: if any of the next `n` frames is feasible, the
loop result is the `k`-th frame for the least feasible index `k`. -/
theorem interceptLoop_first_hit (inp : InterceptInput) :
    ∀ (n : Nat) (s : SimState), anyInterceptFeasible inp n s = true →
      ∃ k, 1 ≤ k ∧ k ≤ n ∧
        interceptFeasible inp (interceptTick^[k] s) = true ∧
        (∀ j, 1 ≤ j → j < k → interceptFeasible inp (interceptTick^[j] s) = false) ∧
        interceptLoop inp n s = interceptTick^[k] s := by
  intro n
  induction n with
  | zero =>
    intro s h
    simp [anyInterceptFeasible] at h
  | succ m ih =>
    intro s h
    by_cases hf : interceptFeasible inp (interceptTick s) = true
    · refine ⟨1, le_refl 1, by omega, by simpa using hf, ?_, ?_⟩
      · intro j h1 hj
        omega
      · simp [interceptLoop, hf]
    · have hf' : interceptFeasible inp (interceptTick s) = false := by
        simpa using hf
      have h2 : anyInterceptFeasible inp m (interceptTick s) = true := by
        simp only [anyInterceptFeasible, hf', Bool.false_or] at h
        exact h
      obtain ⟨k, hk1, hkm, hkf, hmin, hloop⟩ := ih (interceptTick s) h2
      refine ⟨k + 1, by omega, by omega, ?_, ?_, ?_⟩
      · rw [Function.iterate_succ_apply]
        exact hkf
      · intro j hj1 hjk
        cases j with
        | zero => omega
        | succ i =>
          rw [Function.iterate_succ_apply]
          rcases Nat.eq_zero_or_pos i with h0 | hpos
          · subst h0
            simpa using hf'
          · exact hmin i hpos (by omega)
      · rw [Function.iterate_succ_apply]
        have hstep : interceptLoop inp (m + 1) s = interceptLoop inp m (interceptTick s) := by
          simp [interceptLoop, hf']
        rw [hstep]
        exact hloop

/-- Monotone square-root bound used to read the squared comparison of
`geNormSub` back as the source's `‖v‖ - slack ≤ dist`. -/
theorem sqrt_le_of_le_sq {q a : ℚ} (ha : 0 ≤ a) (h : q ≤ a ^ 2) :
    Real.sqrt (q : ℝ) ≤ (a : ℝ) := by
  have h2 : (q : ℝ) ≤ (a : ℝ) ^ 2 := by exact_mod_cast h
  have ha2 : (0 : ℝ) ≤ (a : ℝ) := by exact_mod_cast ha
  calc Real.sqrt (q : ℝ) ≤ Real.sqrt ((a : ℝ) ^ 2) := Real.sqrt_le_sqrt h2
    _ = (a : ℝ) := by
        rw [Real.sqrt_sq ha2]

/-- C3 (amended).  When some frame within the 200-frame horizon satisfies
the feasibility conditions, `estimate_intercept_car_ball` returns the
earliest such frame: its time is `k · DT` for the least feasible index `k`
and its ball location is that frame's simulated ball location.  (As stated
the claim is false — see the counterexample: when no frame is feasible the
function does not return a distinct "no feasible intercept" value but an
ordinary `InterceptResult` holding the horizon-final state.) -/
theorem intercept_returns_earliest_feasible (inp : InterceptInput)
    (h : anyInterceptFeasible inp 200 (interceptInit inp) = true) :
    ∃ k, 1 ≤ k ∧ k ≤ 200 ∧
      interceptFeasible inp (interceptTick^[k] (interceptInit inp)) = true ∧
      (∀ j, 1 ≤ j → j < k →
        interceptFeasible inp (interceptTick^[j] (interceptInit inp)) = false) ∧
      estimate_intercept_car_ball inp =
        { time := (k : ℚ) * interceptDT,
          ball_loc := (interceptTick^[k] (interceptInit inp)).ball.loc } := by
  obtain ⟨k, h1, h2, h3, h4, h5⟩ := interceptLoop_first_hit inp 200 (interceptInit inp) h
  refine ⟨k, h1, h2, h3, h4, ?_⟩
  have ht : (interceptTick^[k] (interceptInit inp)).t = (k : ℚ) * interceptDT := by
    rw [interceptTick_iterate_t]
    simp [interceptInit]
  unfold estimate_intercept_car_ball interceptFinal
  rw [h5]
  simp only [ht]

/-- C3 witness: for the nearby hanging ball, a feasible frame exists within
the horizon and the result is the earliest feasible frame. -/
theorem intercept_returns_earliest_feasible_witness :
    anyInterceptFeasible interceptWitNear 200 (interceptInit interceptWitNear) = true ∧
    (∃ k, 1 ≤ k ∧ k ≤ 200 ∧
      interceptFeasible interceptWitNear
        (interceptTick^[k] (interceptInit interceptWitNear)) = true ∧
      (∀ j, 1 ≤ j → j < k → interceptFeasible interceptWitNear
        (interceptTick^[j] (interceptInit interceptWitNear)) = false) ∧
      estimate_intercept_car_ball interceptWitNear =
        { time := (k : ℚ) * interceptDT,
          ball_loc := (interceptTick^[k] (interceptInit interceptWitNear)).ball.loc }) :=
  ⟨by with_unfolding_all decide,
    intercept_returns_earliest_feasible interceptWitNear (by with_unfolding_all decide)⟩

/-- C3 counterexample.  With the ball resting 20000 units away, no frame in
the 200-frame horizon satisfies the feasibility conditions, yet
`estimate_intercept_car_ball` does not return any distinct "no feasible
intercept" value: it returns an ordinary `InterceptResult` — structurally
indistinguishable from a successful candidate — holding the horizon-final
state (time `200/60 = 10/3`), a frame that itself fails the feasibility
conditions. -/
theorem intercept_no_absence_counterexample :
    anyInterceptFeasible interceptCexFar 200 (interceptInit interceptCexFar) = false ∧
    interceptFeasible interceptCexFar (interceptFinal interceptCexFar) = false ∧
    (estimate_intercept_car_ball interceptCexFar).time = 10 / 3 := by
  refine ⟨?_, ?_, ?_⟩
  · with_unfolding_all decide
  · with_unfolding_all decide
  · with_unfolding_all decide

/-- C4 (amended).  When some frame within the horizon is feasible, the
returned candidate's frame satisfies the feasibility conditions: the
returned time is the final simulation time, the simulated ball is at height
at most 100 there, and the 1-D simulated car has covered the straight-line
distance minus the 240-unit radii allowance by that time.  (As stated the
claim is false — see the counterexample: when no frame is feasible a
candidate is returned whose frame fails the conditions.) -/
theorem intercept_candidate_is_feasible (inp : InterceptInput)
    (h : anyInterceptFeasible inp 200 (interceptInit inp) = true) :
    (estimate_intercept_car_ball inp).time = (interceptFinal inp).t ∧
    (interceptFinal inp).ball.loc.z ≤ 100 ∧
    Real.sqrt ((Vec3.normSq (Vec3.sub (interceptFinal inp).ball.loc inp.carLoc) : ℚ) : ℝ)
        - 240 ≤ ((interceptFinal inp).car.distance_traveled : ℚ) := by
  obtain ⟨k, _, _, h3, _, h5⟩ := interceptLoop_first_hit inp 200 (interceptInit inp) h
  have hfin : interceptFeasible inp (interceptFinal inp) = true := by
    unfold interceptFinal
    rw [h5]
    exact h3
  have hlow : ballLowEnough (interceptFinal inp) = true :=
    (Bool.and_eq_true _ _ |>.mp hfin).1
  have hcov : coversTarget inp (interceptFinal inp) = true :=
    (Bool.and_eq_true _ _ |>.mp hfin).2
  refine ⟨rfl, ?_, ?_⟩
  · exact of_decide_eq_true hlow
  · have hc := of_decide_eq_true hcov
    have hsqrt := sqrt_le_of_le_sq hc.1 hc.2
    have hcast : ((Vec3.normSq (Vec3.sub (interceptFinal inp).ball.loc inp.carLoc) : ℚ) : ℝ)
        = ((Vec3.normSq (Vec3.sub (interceptFinal inp).ball.loc inp.carLoc) : ℚ) : ℝ) := rfl
    have h240 : ((interceptFinal inp).car.distance_traveled + interceptRADII : ℚ) =
        ((interceptFinal inp).car.distance_traveled : ℚ) + 240 := by
      unfold interceptRADII
      rfl
    rw [h240] at hsqrt
    push_cast at hsqrt
    linarith

/-- C4 witness: the nearby hanging ball along y — a feasible frame exists,
and the returned candidate's frame satisfies the conditions. -/
theorem intercept_candidate_is_feasible_witness :
    anyInterceptFeasible interceptWitNearY 200 (interceptInit interceptWitNearY) = true ∧
    ((estimate_intercept_car_ball interceptWitNearY).time =
        (interceptFinal interceptWitNearY).t ∧
      (interceptFinal interceptWitNearY).ball.loc.z ≤ 100 ∧
      Real.sqrt ((Vec3.normSq (Vec3.sub (interceptFinal interceptWitNearY).ball.loc
          interceptWitNearY.carLoc) : ℚ) : ℝ) - 240 ≤
        ((interceptFinal interceptWitNearY).car.distance_traveled : ℚ)) :=
  ⟨by with_unfolding_all decide,
    intercept_candidate_is_feasible interceptWitNearY (by with_unfolding_all decide)⟩

/-- C4 counterexample.  With the ball resting 20000 units away along y,
`estimate_intercept_car_ball` returns a candidate with time `10/3` even
though the 1-D car model has not covered the required distance by that time
(the coverage condition of the feasibility predicate is false at the
returned frame, though the ball is low). -/
theorem intercept_infeasible_candidate_counterexample :
    (estimate_intercept_car_ball interceptCexFarY).time = 10 / 3 ∧
    ballLowEnough (interceptFinal interceptCexFarY) = true ∧
    coversTarget interceptCexFarY (interceptFinal interceptCexFarY) = false := by
  refine ⟨?_, ?_, ?_⟩
  · with_unfolding_all decide
  · with_unfolding_all decide
  · with_unfolding_all decide

/-- C7.  On flat ground the Turner exits `Success` exactly when the yaw
error is under the 3° threshold or the (non-degenerate) swept angle has
reached the target sweep within 3°; it never reports `Failure` on flat
ground; and a degenerate sweep (magnitude at least 330°) with the yaw error
still large yields the turn command rather than failing. -/
theorem turner_success_conditions (sweep yawDiff rawAngle : ℚ) :
    (Turner.executeOld true sweep yawDiff rawAngle = SegmentRunAction.Success ↔
      |yawDiff| < 3 ∨ (|Turn.sweep_to sweep rawAngle| < 330 ∧
        |sweep| - 3 ≤ |Turn.sweep_to sweep rawAngle|)) ∧
    Turner.executeOld true sweep yawDiff rawAngle ≠ SegmentRunAction.Failure ∧
    (330 ≤ |Turn.sweep_to sweep rawAngle| → ¬ |yawDiff| < 3 →
      Turner.executeOld true sweep yawDiff rawAngle =
        SegmentRunAction.Yield (Turner.turnInput yawDiff)) := by
  have hrun : Turner.executeOld true sweep yawDiff rawAngle =
      (if |yawDiff| < 3 then SegmentRunAction.Success
       else if ¬ 330 ≤ |Turn.sweep_to sweep rawAngle| ∧
           |sweep| - 3 ≤ |Turn.sweep_to sweep rawAngle| then SegmentRunAction.Success
       else SegmentRunAction.Yield (Turner.turnInput yawDiff)) := rfl
  rw [hrun]
  by_cases hA : |yawDiff| < 3
  · rw [if_pos hA]
    refine ⟨iff_of_true rfl (Or.inl hA), by simp, ?_⟩
    intro _ hcontra
    exact (hcontra hA).elim
  · rw [if_neg hA]
    by_cases hB : ¬ 330 ≤ |Turn.sweep_to sweep rawAngle| ∧
        |sweep| - 3 ≤ |Turn.sweep_to sweep rawAngle|
    · have hlt : |Turn.sweep_to sweep rawAngle| < 330 := not_le.mp hB.1
      rw [if_pos hB]
      refine ⟨iff_of_true rfl (Or.inr ⟨hlt, hB.2⟩), by simp, ?_⟩
      intro hdeg _
      exact (hB.1 hdeg).elim
    · have hB' : ¬ (|Turn.sweep_to sweep rawAngle| < 330 ∧
          |sweep| - 3 ≤ |Turn.sweep_to sweep rawAngle|) := by
        rw [not_le] at hB
        exact hB
      rw [if_neg hB]
      refine ⟨?_, by simp, fun _ _ => rfl⟩
      refine iff_of_false (by simp) ?_
      rintro (h | h)
      · exact hA h
      · exact hB' h

/-- C7 witness: a 90° turn observed with a 5° yaw error — at raw angle 88°
the sweep is reached (Success); at raw angle -29° the sweep is degenerate
(331°) and the runner yields the turn command instead of failing. -/
theorem turner_success_conditions_witness :
    (Turner.executeOld true 90 5 88 = SegmentRunAction.Success ↔
      |(5 : ℚ)| < 3 ∨ (|Turn.sweep_to 90 88| < 330 ∧ |(90 : ℚ)| - 3 ≤ |Turn.sweep_to 90 88|)) ∧
    (330 ≤ |Turn.sweep_to 90 (-29)| → ¬ |(5 : ℚ)| < 3 →
      Turner.executeOld true 90 5 (-29) =
        SegmentRunAction.Yield (Turner.turnInput 5)) ∧
    Turner.executeOld true 90 5 88 = SegmentRunAction.Success ∧
    Turner.executeOld true 90 5 (-29) = SegmentRunAction.Yield (Turner.turnInput 5) := by
  refine ⟨(turner_success_conditions 90 5 88).1, (turner_success_conditions 90 5 (-29)).2.2, ?_, ?_⟩
  · exact (turner_success_conditions 90 5 88).1.mpr (by norm_num [Turn.sweep_to])
  · exact (turner_success_conditions 90 5 (-29)).2.2 (by norm_num [Turn.sweep_to])
      (by norm_num)

/-- C9.  Every control command emitted by `SkidRecover` and by the Turner
runner is in range: the steer is clamped to [-1, 1] (`SkidRecover`) or is
the sign of the yaw error (`Turner`), and the throttle is exactly 1, inside
[0, 1]. -/
theorem control_command_ranges (rawAngle yawDiff : ℚ) :
    (-1 ≤ (SkidRecover.recoverInput rawAngle).Steer ∧
      (SkidRecover.recoverInput rawAngle).Steer ≤ 1) ∧
    ((SkidRecover.recoverInput rawAngle).Throttle = 1 ∧
      0 ≤ (SkidRecover.recoverInput rawAngle).Throttle ∧
      (SkidRecover.recoverInput rawAngle).Throttle ≤ 1) ∧
    SkidRecover.execute2 rawAngle = Action.Yield (SkidRecover.recoverInput rawAngle) ∧
    (-1 ≤ (Turner.turnInput yawDiff).Steer ∧ (Turner.turnInput yawDiff).Steer ≤ 1) ∧
    ((Turner.turnInput yawDiff).Throttle = 1 ∧
      0 ≤ (Turner.turnInput yawDiff).Throttle ∧
      (Turner.turnInput yawDiff).Throttle ≤ 1) := by
  refine ⟨⟨?_, ?_⟩, ⟨rfl, by show (0 : ℚ) ≤ 1; norm_num, by show (1 : ℚ) ≤ 1; norm_num⟩, rfl, ⟨?_, ?_⟩,
    ⟨rfl, by show (0 : ℚ) ≤ 1; norm_num, by show (1 : ℚ) ≤ 1; norm_num⟩⟩
  · show -1 ≤ min (max rawAngle (-1)) 1
    exact le_min (le_max_right _ _) (by norm_num)
  · show min (max rawAngle (-1)) 1 ≤ 1
    exact min_le_right _ _
  · show -1 ≤ qsignum yawDiff
    unfold qsignum
    split <;> norm_num
  · show qsignum yawDiff ≤ 1
    unfold qsignum
    split <;> norm_num

/-- Rotating a vector by a stored unit complex scales its squared norm by
the squared magnitude `c² + s²` of the rotation. -/
theorem Rot2.normSq_mulVec (r : Rot2) (v : Vec2) :
    Vec2.normSq (r.mulVec v) = (r.c ^ 2 + r.s ^ 2) * Vec2.normSq v := by
  unfold Rot2.mulVec Vec2.normSq
  ring

/-- The lifted 3-D velocity of a flat state has the same squared norm as the
flat velocity (the vertical component is zero). -/
theorem CarState2D.normSq_to_3d_vel (s : CarState2D) :
    Vec3.normSq (s.to_3d.vel) = Vec2.normSq s.vel := by
  unfold CarState2D.to_3d Vec3.normSq Vec2.normSq
  ring

/-- C10.  `Turn::end()` is the start state rotated about the turn center:
the end location keeps the start location's (squared, hence actual)
distance from the center, the end velocity keeps the start speed (in 2-D
and after the 3-D lift), and the boost is carried over unchanged. -/
theorem turn_end_rotation_invariants (t : TurnPlan)
    (hunit : t.sweepRot.c ^ 2 + t.sweepRot.s ^ 2 = 1) :
    Vec2.normSq (Vec2.sub t.end2d.loc t.center) =
      Vec2.normSq (Vec2.sub t.start.loc t.center) ∧
    Vec2.normSq t.end2d.vel = Vec2.normSq t.start.vel ∧
    Vec3.normSq t.endState.vel = Vec2.normSq t.start.vel ∧
    Real.sqrt ((Vec2.normSq (Vec2.sub t.end2d.loc t.center) : ℚ) : ℝ) =
      Real.sqrt ((Vec2.normSq (Vec2.sub t.start.loc t.center) : ℚ) : ℝ) ∧
    t.endState.boost = t.start.boost := by
  have hloc : Vec2.sub t.end2d.loc t.center =
      t.sweepRot.mulVec (Vec2.sub t.start.loc t.center) := by
    show Vec2.sub (Vec2.add t.center (t.sweepRot.mulVec (Vec2.sub t.start.loc t.center)))
        t.center = t.sweepRot.mulVec (Vec2.sub t.start.loc t.center)
    unfold Vec2.sub Vec2.add Rot2.mulVec
    rw [Vec2.mk.injEq]
    constructor <;> ring
  have h1 : Vec2.normSq (Vec2.sub t.end2d.loc t.center) =
      Vec2.normSq (Vec2.sub t.start.loc t.center) := by
    rw [hloc, Rot2.normSq_mulVec, hunit, one_mul]
  have h2 : Vec2.normSq t.end2d.vel = Vec2.normSq t.start.vel := by
    show Vec2.normSq (t.sweepRot.mulVec t.start.vel) = Vec2.normSq t.start.vel
    rw [Rot2.normSq_mulVec, hunit, one_mul]
  refine ⟨h1, h2, ?_, ?_, rfl⟩
  · rw [TurnPlan.endState, CarState2D.normSq_to_3d_vel]
    exact h2
  · rw [h1]

/-- C10 witness: a concrete turn whose sweep rotation is the rational unit
vector `(3/5, 4/5)` satisfies the rotation invariants. -/
theorem turn_end_rotation_invariants_witness :
    turnPlanWit.sweepRot.c ^ 2 + turnPlanWit.sweepRot.s ^ 2 = 1 ∧
    (Vec2.normSq (Vec2.sub turnPlanWit.end2d.loc turnPlanWit.center) =
        Vec2.normSq (Vec2.sub turnPlanWit.start.loc turnPlanWit.center) ∧
      Vec2.normSq turnPlanWit.end2d.vel = Vec2.normSq turnPlanWit.start.vel ∧
      Vec3.normSq turnPlanWit.endState.vel = Vec2.normSq turnPlanWit.start.vel ∧
      Real.sqrt ((Vec2.normSq (Vec2.sub turnPlanWit.end2d.loc turnPlanWit.center) : ℚ) : ℝ) =
        Real.sqrt ((Vec2.normSq (Vec2.sub turnPlanWit.start.loc turnPlanWit.center) : ℚ) : ℝ) ∧
      turnPlanWit.endState.boost = turnPlanWit.start.boost) :=
  ⟨by norm_num [turnPlanWit], turn_end_rotation_invariants turnPlanWit (by norm_num [turnPlanWit])⟩

end SDC
